import Mathlib

/-!
Verification development for the MQTTStat device agent.

The definitions below are a shallow embedding of the Python source:

* `mqtt_stat/client/__init__.py` — the `MQTTClient` subclass: `__init__`
  (LWT registration), `on_connect`, `on_message`, `execute_command`,
  `find_service`, `get_status`, `publish`.
* `mqtt_stat/audio/__init__.py` — `VolumeControl`, the free functions
  `alarm`, `start_alarm`, and the module-level `alarm_event`.
* `mqtt_stat/stats/battery.py` — `get_battery_info`.

Volumes, battery percentages and durations are modelled as rationals;
JSON values as an inductive type; a JSON object as an association list.
Methods that can raise return `Except PyErr`.  The mis-indented tail of
`publish` (which calls `self.client.connect` and `self.client.loop_forever()`)
is modelled with an explicit fuel parameter so that divergence is expressible:
for every fuel bound the call has not completed.
-/

/-- JSON values as they occur in the payloads the agent builds and parses. -/
inductive JsonVal where
  | str (s : String)
  | num (q : ℚ)
  | bool (b : Bool)
  | null
  deriving DecidableEq, Repr

/-- A decoded JSON object: an association list of keys to values. -/
abbrev Jobj := List (String × JsonVal)

/-- Python exceptions that the embedded methods can raise. -/
inductive PyErr where
  | typeError
  | nameError
  | attributeError
  | valueError (msg : String)
  deriving DecidableEq, Repr

/-- Lookup in a decoded JSON object, matching Python dict `get`: the binding
that survives is the last one with the given key, `none` when absent. -/
def jget (o : Jobj) (k : String) : Option JsonVal :=
  o.foldl (fun acc kv => if kv.1 = k then some kv.2 else acc) none

/-- An MQTT message as handed to the paho transport: topic, payload object,
qos and retain flag. -/
structure Msg where
  topic : String
  payload : Jobj
  qos : Nat
  retain : Bool
  deriving DecidableEq, Repr

/-- The state of an `MQTTClient` instance: the six constructor arguments
(`mqtt_stat/client/__init__.py`, `__init__`) plus the list of messages this
client has handed to the transport. -/
structure ClientState where
  broker : String
  port : Nat
  listen_topic : String
  reply_topic : String
  birth_topic : String
  lwt_topic : String
  published : List Msg
  deriving DecidableEq, Repr

/-- Embedding of `self.client.publish(topic, json.dumps(payload), qos, retain)`:
the message is appended to the transport queue. -/
def mqtt_publish (s : ClientState) (topic : String) (payload : Jobj)
    (qos : Nat) (retain : Bool) : ClientState :=
  { s with published := s.published ++ [⟨topic, payload, qos, retain⟩] }

/-- Payload of the last-will message registered in `__init__`:
`json.dumps({'status': 'offline'})`. -/
def offline_payload : Jobj := [("status", JsonVal.str "offline")]

/-- Payload of the birth message published in `on_connect`:
`json.dumps({'status': 'online'})`. -/
def online_payload : Jobj := [("status", JsonVal.str "online")]

/-- Observable events of the connection lifecycle, in the order the client
performs them: will registration (`client.will_set`), the session-open attempt
(`client.connect`), a publish handed to the transport, a subscription. -/
inductive LcEvent where
  | willSet (topic : String) (payload : Jobj) (qos : Nat) (retain : Bool)
  | connectAttempt
  | publishMsg (topic : String) (payload : Jobj) (qos : Nat) (retain : Bool)
  | subscribe (topic : String)
  deriving DecidableEq, Repr

/-- Events performed by `MQTTClient.__init__` before any session exists:
`self.client.will_set(self.lwt_topic, json.dumps({'status': 'offline'}), qos=1,
retain=True)`. -/
def client_init_events (s : ClientState) : List LcEvent :=
  [LcEvent.willSet s.lwt_topic offline_payload 1 true]

/-- Events performed by `MQTTClient.on_connect` given the broker return code
`rc`: on `rc == 0` it publishes the birth message (qos 1, retained) and
subscribes to the listen topic; otherwise it only prints. -/
def on_connect_events (s : ClientState) (rc : Nat) : List LcEvent :=
  if rc = 0 then
    [LcEvent.publishMsg s.birth_topic online_payload 1 true,
     LcEvent.subscribe s.listen_topic]
  else []

/-- The whole connect lifecycle as an event trace: construction (will
registration), then the session-open attempt, then the `on_connect` callback
for return code `rc`. -/
def connect_lifecycle (s : ClientState) (rc : Nat) : List LcEvent :=
  client_init_events s ++ [LcEvent.connectAttempt] ++ on_connect_events s rc

/-- Embedding of `MQTTClient.on_message` after JSON decoding: the argument is
`some payload` when `json.loads` succeeded and `none` when it raised
`JSONDecodeError` (caught; the method only prints).  For a decoded payload the
method inspects only `payload.get('status')`: the value `'needed'` reaches
`self.respond_to_needed_status()`, an attribute defined nowhere in the
codebase (AttributeError); the value `'alert'` reaches `chime.info()`, a name
never imported (NameError); every other payload falls through with no action
and no reply. -/
def on_message (s : ClientState) (decoded : Option Jobj) :
    Except PyErr ClientState :=
  match decoded with
  | none => Except.ok s
  | some payload =>
    if jget payload "status" = some (JsonVal.str "needed") then
      Except.error PyErr.attributeError
    else if jget payload "status" = some (JsonVal.str "alert") then
      Except.error PyErr.nameError
    else
      Except.ok s

/-- Fuel-indexed embedding of `self.client.loop_forever()`: the loop never
issues a disconnect, so no amount of fuel makes it return. -/
def loop_forever_steps : Nat → Option Unit
  | 0 => none
  | n + 1 => loop_forever_steps n

/-- Outcome of one call to `MQTTClient.publish`: which messages were handed to
the transport, whether a fresh `client.connect` was attempted, and whether the
call returned to its caller within the given fuel. -/
structure PublishOutcome where
  handed_to_transport : List Msg
  connect_attempted : Bool
  returned : Bool
  deriving DecidableEq, Repr

/-- Embedding of the body of `MQTTClient.publish(data)` as written: it hands
`(reply_topic, data, qos=1)` to the transport, then — because the body of the
intended `run` method sits mis-indented inside `publish` — calls
`self.client.connect(self.broker, self.port, 60)` and
`self.client.loop_forever()`.  `returned` records whether `loop_forever`
finished within `fuel` steps. -/
def publish_body (fuel : Nat) (s : ClientState) (data : Jobj) : PublishOutcome :=
  { handed_to_transport := [⟨s.reply_topic, data, 1, false⟩],
    connect_attempted := true,
    returned := (loop_forever_steps fuel).isSome }

/-- Result of `get_battery_info` (`mqtt_stat/stats/battery.py`): a dict of
`percent` and `power_plugged` when `psutil.sensors_battery()` is not `None`,
otherwise the literal string `"No battery information available."` — despite
the docstring declaring a dict return. -/
inductive BatteryInfo where
  | dict (percent : ℚ) (power_plugged : Bool)
  | no_battery_string
  deriving DecidableEq, Repr

/-- Embedding of `get_battery_info`; the argument is the value of
`psutil.sensors_battery()` (`none` when the host has no battery). -/
def get_battery_info (sensor : Option (ℚ × Bool)) : BatteryInfo :=
  match sensor with
  | some pb => BatteryInfo.dict pb.1 pb.2
  | none => BatteryInfo.no_battery_string

/-- Snapshot of the external device-info queries consumed by `get_status`:
the `psutil.sensors_battery()` value and the `get_network_name()` value. -/
structure DeviceInfo where
  battery : Option (ℚ × Bool)
  network : String
  deriving DecidableEq, Repr

/-- The response dict built by `MQTTClient.get_status`. -/
def status_response (network_name : String) (percent : ℚ) (plugged : Bool) :
    Jobj :=
  [("status", JsonVal.str "responded"),
   ("network_ssid", JsonVal.str network_name),
   ("battery_level", JsonVal.num percent),
   ("battery_charging", JsonVal.bool plugged)]

/-- Embedding of `MQTTClient.get_status`: it calls `get_battery_info`, then
subscripts the result with `['percent']` and `['power_plugged']` — which
raises `TypeError` when the result is the no-battery string — builds the
response dict and calls `self.publish(response)`, whose outcome (including
its non-return) is `publish_body`. -/
def get_status_exec (fuel : Nat) (dev : DeviceInfo) (s : ClientState) :
    Except PyErr PublishOutcome :=
  match get_battery_info dev.battery with
  | BatteryInfo.no_battery_string => Except.error PyErr.typeError
  | BatteryInfo.dict p c =>
      Except.ok (publish_body fuel s (status_response dev.network p c))

/-- Parameter names of each handler in the `commands` table of
`MQTTClient.execute_command`: `get_status` and `find_service` are both
`def f(self)` — no parameters besides `self`. -/
def handler_param_names : String → Option (List String)
  | "get_status" => some []
  | "find" => some []
  | _ => none

/-- Outcome of one `execute_command` dispatch when no exception is raised. -/
inductive DispatchOutcome where
  | handlerInvoked (command : String)
  | unrecognizedLogged
  deriving DecidableEq, Repr

/-- Embedding of `MQTTClient.execute_command(command, data)`: a recognized
command is called as `commands[command](**data)`; Python keyword binding onto
a handler succeeds only when every key of `data` names a parameter of the
handler, and raises `TypeError` otherwise.  An unrecognized command is only
printed. -/
def execute_command (command : String) (data : Jobj) :
    Except PyErr DispatchOutcome :=
  match handler_param_names command with
  | some params =>
      if data.all (fun kv => params.contains kv.1) then
        Except.ok (DispatchOutcome.handlerInvoked command)
      else
        Except.error PyErr.typeError
  | none => Except.ok DispatchOutcome.unrecognizedLogged

/-- Parameters of one alarm ramp, as passed to `alarm(interval,
volume_increment, volume_start, volume_max)`. -/
structure AlarmParams where
  interval : ℚ
  volume_increment : ℚ
  volume_start : ℚ
  volume_max : ℚ
  deriving DecidableEq, Repr

/-- The arguments of the `start_alarm` call in `MQTTClient.find_service`:
`interval=1.5, volume_increment=0.05, volume_start=0.05` with `volume_max`
left at the `alarm` default `1.0`. -/
def default_find_params : AlarmParams :=
  { interval := 3/2, volume_increment := 1/20, volume_start := 1/20,
    volume_max := 1 }

/-- Process-wide audio state: the module-level `alarm_event` flag of
`mqtt_stat/audio/__init__.py` and the alarm threads started so far (each
recorded by the parameters its `alarm` target received), in start order. -/
structure AudioState where
  alarm_event_set : Bool
  threads : List AlarmParams
  deriving DecidableEq, Repr

/-- Embedding of `start_alarm(**kwargs)` up to the point where the new thread
is running: `alarm_event.clear()` then `Thread(target=alarm,
kwargs=kwargs).start()`.  There is no check of whether an alarm is already
running. -/
def start_alarm (p : AlarmParams) (s : AudioState) : AudioState :=
  { alarm_event_set := false, threads := s.threads ++ [p] }

/-- Embedding of setting the module-level stop flag (`alarm_event.set()`),
which is how the alarm loop is told to stop. -/
def stop_event (s : AudioState) : AudioState :=
  { s with alarm_event_set := true }

/-- Embedding of the validation prologue of `alarm`: `interval <= 0` raises,
then each of `volume_increment`, `volume_start`, `volume_max` (in that order)
must satisfy `0 <= value <= 1`.  Nothing else is checked. -/
def alarm_validate (interval volume_increment volume_start volume_max : ℚ) :
    Except PyErr Unit :=
  if interval ≤ 0 then
    Except.error (PyErr.valueError "interval must be greater than 0")
  else if ¬ (0 ≤ volume_increment ∧ volume_increment ≤ 1) then
    Except.error (PyErr.valueError "volume_increment out of range")
  else if ¬ (0 ≤ volume_start ∧ volume_start ≤ 1) then
    Except.error (PyErr.valueError "volume_start out of range")
  else if ¬ (0 ≤ volume_max ∧ volume_max ≤ 1) then
    Except.error (PyErr.valueError "volume_max out of range")
  else
    Except.ok ()

/-- The volume at which the alarm loop plays the sound on iteration `n`,
following the loop body of `alarm`: `volume = volume_start` initially, and
after each iteration `volume += volume_increment; volume = min(volume,
volume_max)`.  `VolumeControl.increase_volume` applies the same update
`min(max_volume, volume + increment)`. -/
def ramp_volume (volume_increment volume_start volume_max : ℚ) : Nat → ℚ
  | 0 => volume_start
  | n + 1 =>
      min (ramp_volume volume_increment volume_start volume_max n
             + volume_increment)
          volume_max

/-- Embedding of the `increment` property setter of `VolumeControl`, the only
validation run when a `VolumeControl` is constructed (`__init__` assigns
`__max_volume` and the start volume directly, bypassing their setters, and
then runs `self.increment = increment`): `new <= 0` raises, `new >=
self.max_volume` raises, otherwise `__increment` is assigned. -/
def increment_setter (max_volume new : ℚ) : Except PyErr ℚ :=
  if new ≤ 0 then
    Except.error (PyErr.valueError "increment must be greater than 0")
  else if max_volume ≤ new then
    Except.error (PyErr.valueError "increment must be less than max_volume")
  else
    Except.ok new

/-- Embedding of `VolumeControl.__init__(sound, start_volume, max_volume,
increment)` state outcome: on success the stored
`(max_volume, increment, start volume)` triple; construction fails exactly
when the `increment` setter raises, and then no field of the half-built
object is ever observed (the constructor propagates the exception). -/
def volume_control_init (max_volume increment start_volume : ℚ) :
    Except PyErr (ℚ × ℚ × ℚ) :=
  match increment_setter max_volume increment with
  | Except.error e => Except.error e
  | Except.ok inc => Except.ok (max_volume, inc, start_volume)

/-- Duration of one full iteration of the alarm loop: `play_sound` blocks for
the length of the sound, then `sleep(interval)` runs in full — `time.sleep`
takes no notice of `alarm_event`, so the iteration length does not depend on
when (or whether) the stop flag was set. -/
def iteration_duration (sound_length interval : ℚ) : ℚ :=
  sound_length + interval

/-- Duration of the wait phase of one iteration, as a function of whether the
stop event is already set when the wait begins: the code runs
`sleep(interval)`, a fixed delay, so the answer is `interval` either way. -/
def wait_phase_duration (interval : ℚ) (_event_set_before_wait : Bool) : ℚ :=
  interval

/-- Time from the moment `alarm_event` is set — at offset `t` from the start
of the iteration the loop is currently in — until the loop reaches its next
`while not alarm_event.is_set()` check and exits: the remainder of the
current play-plus-sleep cycle. -/
def stop_latency (sound_length interval t : ℚ) : ℚ :=
  sound_length + interval - t

/-- Helper: `loop_forever` never returns — no fuel bound suffices. -/
theorem loop_forever_steps_eq_none (n : Nat) : loop_forever_steps n = none := by
  induction n with
  | zero => rfl
  | succ n ih => exact ih

/-- Sample client used to instantiate universally quantified theorems. -/
def sample_client : ClientState :=
  { broker := "mqtt.example.com", port := 1883, listen_topic := "cmd",
    reply_topic := "reply", birth_topic := "birth", lwt_topic := "lwt",
    published := [] }

/-- Device-info snapshot of claim C1: battery 87 percent, charging, network
name HomeNet. -/
def home_device : DeviceInfo :=
  { battery := some (87, true), network := "HomeNet" }

/-- C1: an inbound `get_status` command never reaches the status handler:
`on_message` inspects only `payload.get('status')` and returns with nothing
published, even though `get_status` itself (reachable only through the
never-called `execute_command`) would hand exactly the documented reply to the
transport on the reply topic. -/
theorem C1_get_status_not_dispatched (s : ClientState) (fuel : Nat) :
    on_message s (some [("command", JsonVal.str "get_status")]) = Except.ok s ∧
    get_status_exec fuel home_device s =
      Except.ok
        { handed_to_transport :=
            [⟨s.reply_topic, status_response "HomeNet" 87 true, 1, false⟩],
          connect_attempted := true,
          returned := false } := by
  constructor
  · rfl
  · simp [get_status_exec, home_device, get_battery_info, publish_body,
      loop_forever_steps_eq_none]

/-- C2: `publish` hands exactly one message — the payload on the reply topic
at qos 1 — to the transport, but then runs the mis-indented
`client.connect`/`client.loop_forever()` tail and never returns to its
caller, for any fuel bound. -/
theorem C2_publish_never_returns (fuel : Nat) (s : ClientState) (data : Jobj) :
    (publish_body fuel s data).handed_to_transport =
      [⟨s.reply_topic, data, 1, false⟩] ∧
    (publish_body fuel s data).connect_attempted = true ∧
    (publish_body fuel s data).returned = false := by
  refine ⟨rfl, rfl, ?_⟩
  simp [publish_body, loop_forever_steps_eq_none]

/-- C3 counterexample: with one alarm already running and the stop flag clear
(Ringing), a second `start_alarm` call is not a no-op — it leaves two alarm
threads running and changes the state. -/
theorem C3_counterexample :
    (start_alarm default_find_params
        (start_alarm default_find_params
          { alarm_event_set := true, threads := [] })).threads.length = 2 ∧
    start_alarm default_find_params
        { alarm_event_set := false, threads := [default_find_params] } ≠
      { alarm_event_set := false, threads := [default_find_params] } := by
  constructor
  · rfl
  · simp [start_alarm]

/-- C3 amended: `start_alarm` performs no ringing check at all — from every
state it clears the module-level stop flag and appends one more alarm thread,
so a call while an alarm is already running stacks a second concurrent task. -/
theorem C3_amended_no_ringing_guard (p : AlarmParams) (s : AudioState) :
    start_alarm p s =
      { alarm_event_set := false, threads := s.threads ++ [p] } := rfl

/-- C4: with no battery present, `get_battery_info` returns its no-battery
string instead of the dict its docstring promises, and `get_status` raises
`TypeError` subscripting it — no reply is handed to the transport and no
"unavailable" marker is produced. -/
theorem C4_no_battery_raises (fuel : Nat) (s : ClientState) (net : String) :
    get_battery_info none = BatteryInfo.no_battery_string ∧
    get_status_exec fuel { battery := none, network := net } s =
      Except.error PyErr.typeError :=
  ⟨rfl, rfl⟩

/-- C5 counterexample: the tuple interval 1, increment 1/2, start 1/10,
max 3/10 has `increment >= volume_max`, yet the validation prologue of
`alarm` accepts it — the ramp loop is entered, no error is raised. -/
theorem C5_counterexample :
    alarm_validate 1 (1/2) (1/10) (3/10) = Except.ok () ∧
    ¬ ((1 : ℚ)/2 < 3/10) := by
  constructor
  · norm_num [alarm_validate]
  · norm_num

/-- C5 amended: only `VolumeControl` construction enforces
`0 < increment < max_volume` (raising ValueError, leaving no observable
state); the free-function `alarm` validation, which is what `start_alarm`
and `find` actually run, accepts exactly `interval > 0` together with each of
increment, start and max lying in `[0, 1]` — it never compares increment or
start against max. -/
theorem C5_amended_validation
    (max_volume increment start_volume interval : ℚ) :
    (volume_control_init max_volume increment start_volume =
        Except.ok (max_volume, increment, start_volume) ↔
      0 < increment ∧ increment < max_volume) ∧
    (alarm_validate interval increment start_volume max_volume =
        Except.ok () ↔
      0 < interval ∧ (0 ≤ increment ∧ increment ≤ 1) ∧
        (0 ≤ start_volume ∧ start_volume ≤ 1) ∧
        (0 ≤ max_volume ∧ max_volume ≤ 1)) := by
  constructor
  · unfold volume_control_init increment_setter
    by_cases h1 : increment ≤ 0
    · rw [if_pos h1]
      exact iff_of_false (by simp) (fun hc => by linarith [hc.1])
    · rw [if_neg h1]
      by_cases h2 : max_volume ≤ increment
      · rw [if_pos h2]
        exact iff_of_false (by simp) (fun hc => by linarith [hc.2])
      · rw [if_neg h2]
        exact iff_of_true rfl ⟨not_le.mp h1, not_le.mp h2⟩
  · unfold alarm_validate
    by_cases h1 : interval ≤ 0
    · rw [if_pos h1]
      exact iff_of_false (by simp) (fun hc => by linarith [hc.1])
    · rw [if_neg h1]
      by_cases h2 : 0 ≤ increment ∧ increment ≤ 1
      · rw [if_neg (not_not.mpr h2)]
        by_cases h3 : 0 ≤ start_volume ∧ start_volume ≤ 1
        · rw [if_neg (not_not.mpr h3)]
          by_cases h4 : 0 ≤ max_volume ∧ max_volume ≤ 1
          · rw [if_neg (not_not.mpr h4)]
            exact iff_of_true rfl ⟨not_le.mp h1, h2, h3, h4⟩
          · rw [if_pos h4]
            exact iff_of_false (by simp) (fun hc => h4 hc.2.2.2)
        · rw [if_pos h3]
          exact iff_of_false (by simp) (fun hc => h3 hc.2.2.1)
      · rw [if_pos h2]
        exact iff_of_false (by simp) (fun hc => h2 hc.2.1)

/-- C5 witness: the default `find` ramp parameters pass the `alarm`
validation. -/
theorem C5_witness :
    alarm_validate (3/2) (1/20) (1/20) 1 = Except.ok () :=
  (C5_amended_validation 1 (1/20) (1/20) (3/2)).2.mpr (by norm_num)

/-- C6 counterexample: the tuple increment 1/20, start 1, max 1/2 passes the
`alarm` validation, yet its ramp plays volume 1 on iteration 0 — above the
maximum — and then drops to 1/2: the sequence exceeds `volume_max` and is
not non-decreasing. -/
theorem C6_counterexample :
    alarm_validate 1 (1/20) 1 (1/2) = Except.ok () ∧
    ramp_volume (1/20) 1 (1/2) 0 = 1 ∧
    ramp_volume (1/20) 1 (1/2) 1 = 1/2 ∧
    ¬ ramp_volume (1/20) 1 (1/2) 0 ≤ 1/2 ∧
    ramp_volume (1/20) 1 (1/2) 1 < ramp_volume (1/20) 1 (1/2) 0 := by
  refine ⟨?_, rfl, ?_, ?_, ?_⟩ <;>
    norm_num [alarm_validate, ramp_volume, min_def]

/-- C6 amended: the ramp starts at `volume_start` and obeys the recurrence
`volume[n+1] = min(volume[n] + volume_increment, volume_max)` always; under
the additional hypotheses `0 ≤ volume_increment` and
`volume_start ≤ volume_max` (which the `alarm` validation does not enforce)
the sequence never exceeds `volume_max` and is non-decreasing. -/
theorem C6_amended_ramp (volume_increment volume_start volume_max : ℚ)
    (hinc : 0 ≤ volume_increment) (hstart : volume_start ≤ volume_max) :
    ramp_volume volume_increment volume_start volume_max 0 = volume_start ∧
    (∀ n, ramp_volume volume_increment volume_start volume_max (n + 1) =
      min (ramp_volume volume_increment volume_start volume_max n
             + volume_increment) volume_max) ∧
    (∀ n, ramp_volume volume_increment volume_start volume_max n ≤
      volume_max) ∧
    (∀ n, ramp_volume volume_increment volume_start volume_max n ≤
      ramp_volume volume_increment volume_start volume_max (n + 1)) := by
  have hb : ∀ n,
      ramp_volume volume_increment volume_start volume_max n ≤ volume_max := by
    intro n
    induction n with
    | zero => exact hstart
    | succ n ih => exact min_le_right _ _
  refine ⟨rfl, fun n => rfl, hb, fun n => ?_⟩
  have h1 : ramp_volume volume_increment volume_start volume_max n ≤
      ramp_volume volume_increment volume_start volume_max n
        + volume_increment := by linarith
  exact le_min h1 (hb n)

/-- C6 witness: the default `find` ramp satisfies the hypotheses; its first
volume is the start volume 1/20. -/
theorem C6_witness :
    ramp_volume (1/20) (1/20) 1 0 = 1/20 :=
  (C6_amended_ramp (1/20) (1/20) 1 (by norm_num) (by norm_num)).1

/-- C7 counterexample: the wait phase is `time.sleep(interval)`, whose
duration ignores the stop flag entirely — with the flag already set before a
100-second wait begins, the task still waits the full 100 seconds, and a stop
signalled right after the 1-second playback of an iteration with a 100-second
interval is only observed 100 seconds later. -/
theorem C7_counterexample :
    wait_phase_duration 100 true = 100 ∧
    wait_phase_duration 100 true = wait_phase_duration 100 false ∧
    stop_latency 1 100 1 = 100 := by
  refine ⟨rfl, rfl, ?_⟩
  norm_num [stop_latency]

/-- C7 amended: a stop signalled at offset `t ≥ 0` into the current iteration
is observed at the next loop check, within one playback-plus-wait cycle, and
setting the already-set stop flag is a no-op; but the wait itself is not
interruptible (see the counterexample), so the latency is the full remainder
of the cycle. -/
theorem C7_amended_stop (sound_length interval t : ℚ) (s : AudioState)
    (ht : 0 ≤ t) :
    stop_latency sound_length interval t ≤
      iteration_duration sound_length interval ∧
    stop_event (stop_event s) = stop_event s := by
  constructor
  · unfold stop_latency iteration_duration
    linarith
  · rfl

/-- C7 witness: concrete instance with playback length 1, interval 2, stop
signalled one time unit into the iteration. -/
theorem C7_witness :
    stop_latency 1 2 1 ≤ iteration_duration 1 2 ∧
    stop_event (stop_event { alarm_event_set := false, threads := [] }) =
      stop_event { alarm_event_set := false, threads := [] } :=
  C7_amended_stop 1 2 1 { alarm_event_set := false, threads := [] }
    (by norm_num)

/-- C8: a payload that fails JSON decoding is caught by the
`except json.JSONDecodeError` handler, which only prints — `on_message`
returns the client state unchanged, so nothing is published and the
connection state is untouched. -/
theorem C8_malformed_json_discarded (s : ClientState) :
    on_message s none = Except.ok s := rfl

/-- C9: the connect lifecycle begins with the will registration of
`{"status": "offline"}` (qos 1, retained) strictly before the session-open
attempt; when the broker answers rc = 0 the trace continues with exactly the
birth publish of `{"status": "online"}` (qos 1, retained) followed by the
subscription to the listen topic, and for rc ≠ 0 it continues with nothing. -/
theorem C9_connect_lifecycle_order (s : ClientState) (rc : Nat) :
    (connect_lifecycle s rc).head? =
      some (LcEvent.willSet s.lwt_topic offline_payload 1 true) ∧
    (rc = 0 → connect_lifecycle s rc =
      [LcEvent.willSet s.lwt_topic offline_payload 1 true,
       LcEvent.connectAttempt,
       LcEvent.publishMsg s.birth_topic online_payload 1 true,
       LcEvent.subscribe s.listen_topic]) ∧
    (rc ≠ 0 → connect_lifecycle s rc =
      [LcEvent.willSet s.lwt_topic offline_payload 1 true,
       LcEvent.connectAttempt]) := by
  refine ⟨rfl, fun h => ?_, fun h => ?_⟩
  · subst h
    rfl
  · simp [connect_lifecycle, client_init_events, on_connect_events, h]

/-- C9 witness: the lifecycle trace of the sample client on a successful
connection. -/
theorem C9_witness :
    connect_lifecycle sample_client 0 =
      [LcEvent.willSet "lwt" offline_payload 1 true,
       LcEvent.connectAttempt,
       LcEvent.publishMsg "birth" online_payload 1 true,
       LcEvent.subscribe "cmd"] :=
  (C9_connect_lifecycle_order sample_client 0).2.1 rfl

/-- C10: for each recognized command, dispatch raises `TypeError` exactly
when the payload mapping is non-empty, because `execute_command` splats the
payload as keyword arguments onto a handler whose only parameter is `self`. -/
theorem C10_nonempty_payload_raises (command : String) (data : Jobj)
    (hc : command = "get_status" ∨ command = "find") :
    execute_command command data = Except.error PyErr.typeError ↔
      data ≠ [] := by
  have hp : handler_param_names command = some [] := by
    rcases hc with h | h <;> subst h <;> rfl
  cases data with
  | nil => simp [execute_command, hp]
  | cons kv rest => simp [execute_command, hp]

/-- C10 witness: a `find` command carrying one payload entry raises
`TypeError`; so the claim theorem applies at a concrete input. -/
theorem C10_witness :
    execute_command "find" [("volume", JsonVal.num 1)] =
      Except.error PyErr.typeError :=
  (C10_nonempty_payload_raises "find" [("volume", JsonVal.num 1)]
    (Or.inr rfl)).mpr (by simp)
